import Mathlib

/-
A shallow embedding of `src/ecobee.js` (mindflowgo/ecobee-manager), together
with proofs about its credential lifecycle, sensor polling, persistence and
hysteresis control.  Each definition is a direct translation of the named
piece of the source; effects (settingsSave, mailSend, console.log,
process.exit) are reified as data in the result records.
-/

namespace Ecobee

/-- The persisted settings snapshot (the JSON document behind `SETTINGS_FILE`).
The fields are exactly the keys the program reads or writes; `none` models a
key that is absent from the document (and hence JS-falsy when tested with
`!settings.field`).  `device_SunroomHeater` holds the power-mode string
`"powerOn"` or `"powerOff"` recorded by the control loop (lines 217/227). -/
structure Settings where
  authCode : Option String := none
  access_token : Option String := none
  refresh_token : Option String := none
  token_type : Option String := none
  device_SunroomHeater : Option String := none
deriving DecidableEq

/-- The empty settings object `{}` created on first run (lines 89-95). -/
def emptySettings : Settings := ⟨none, none, none, none, none⟩

/-- Observable outcome of one phase of the run: the in-memory settings at the
end of the phase, the successive `settingsSave` calls (each with the document
written), the `(subject, text)` pairs handed to `mailSend`, the console/log
output, and `some 1` when the phase reached `process.exit(1)`. -/
structure PhaseResult where
  settings : Settings
  saved : List Settings := []
  mails : List (String × String) := []
  console : List String := []
  exitCode : Option Nat := none
deriving DecidableEq

/-! ### PIN-grant branch (lines 98-115) -/

/-- Body of the `GET /authorize` PIN-grant response: `response.data.ecobeePin`
and `response.data.code` (lines 102-103). -/
structure PinResponse where
  ecobeePin : String
  code : String
deriving DecidableEq

/-- Guard of the PIN-grant branch: `if( !settings.authCode )` (line 98). -/
def runsPinBranch (s : Settings) : Bool := s.authCode.isNone

/-- Console message of lines 105-108 (whitespace compressed): the PIN is shown
to the user on the console only. -/
def pinPrompt (pin : String) : String :=
  "** User Action Required ** Go to My Apps > Add Application and enter this PIN (and add the app): "
    ++ pin

/-- Subject of the notification mail sent in the PIN-grant branch (line 111). -/
def pinMailSubject : String := "!App Auth Required"

/-- Text of the notification mail sent in the PIN-grant branch (line 111);
note it is a fixed string that does not include the PIN. -/
def pinMailText : String := "You need to relogin to the Ecobee app"

/-- The PIN-grant branch (lines 98-115): store `response.data.code` as
`settings.authCode` (the PIN itself is only printed), persist, send the fixed
notification mail, then `process.exit(1)`.  The awaited mail promise is
modelled as resolving here; a rejected send aborts before the exit (see
`mailSendSettled` below). -/
def pinBranch (s : Settings) (r : PinResponse) : PhaseResult :=
  { settings := { s with authCode := some r.code },
    saved := [{ s with authCode := some r.code }],
    mails := [(pinMailSubject, pinMailText)],
    console := [pinPrompt r.ecobeePin],
    exitCode := some 1 }

/-- Whether any field of the persisted snapshot holds the given string value;
used to express "the snapshot contains the PIN". -/
def settingsMentions (s : Settings) (v : String) : Bool :=
  s.authCode == some v || s.access_token == some v || s.refresh_token == some v ||
    s.token_type == some v || s.device_SunroomHeater == some v

/-! ### Token exchange (lines 121-145) -/

/-- Guard of the token-exchange branch: `if( !settings.access_token )`
(line 121). -/
def runsTokenBranch (s : Settings) : Bool := s.access_token.isNone

/-- The grant carried by the `POST /token` request body (lines 125-127). -/
inductive TokenRequest
  | refreshGrant (refreshToken : String)
  | pinGrant (authCode : String)
deriving DecidableEq

/-- Request body of the token POST (lines 124-127): use
`grant_type=refresh_token` with `settings.refresh_token` when that key is
present, otherwise `grant_type=ecobeePin` with `settings.authCode` (an absent
`authCode` would be interpolated by JS as the string `"undefined"`). -/
def tokenRequestBody (s : Settings) : TokenRequest :=
  match s.refresh_token with
  | some rt => TokenRequest.refreshGrant rt
  | none => TokenRequest.pinGrant (s.authCode.getD "undefined")

/-- Body of the token POST response.  On success the provider returns the
token fields; on failure it returns an `error` string.  (The real body also
carries `expires_in`/`scope`, which the program merges but never reads.) -/
structure TokenResponse where
  error : Option String := none
  access_token : Option String := none
  token_type : Option String := none
  refresh_token : Option String := none
deriving DecidableEq

/-- The token-exchange branch after the POST (lines 129-144).  On a provider
error: `authorization_expired` deletes `authCode`, anything else deletes
`access_token`; either way the snapshot is persisted and the process exits 1.
On success the response fields are spread over the settings
(`{ ...settings, ...response.data }`) and persisted.  (The malformed
`logWrite` of line 130 is not modelled.) -/
def tokenBranch (s : Settings) (r : TokenResponse) : PhaseResult :=
  match r.error with
  | some err =>
    let s2 := if err = "authorization_expired" then { s with authCode := none }
              else { s with access_token := none }
    { settings := s2, saved := [s2], exitCode := some 1 }
  | none =>
    let s2 := { s with access_token := r.access_token <|> s.access_token,
                       token_type := r.token_type <|> s.token_type,
                       refresh_token := r.refresh_token <|> s.refresh_token }
    { settings := s2, saved := [s2] }

/-! ### Sensor poll and embedded status code (lines 148-185) -/

/-- Embedded status object of the thermostat response
(`response.data.status`). -/
structure ApiStatus where
  code : Int
  message : String := ""
deriving DecidableEq

/-- The `response.data` payload, as far as the status check reads it.  (The
`thermostatList` is consumed afterwards by the per-sensor step, modelled by
`sunroomStep` below.) -/
structure SensorData where
  status : ApiStatus
deriving DecidableEq

/-- An axios response object, holding the provider payload in `.data`. -/
structure AxiosResponse where
  data : SensorData
deriving DecidableEq

/-- An axios transport error: `error.message` plus `error.response`, which is
absent when the failure produced no HTTP response at all. -/
structure TransportError where
  message : String := ""
  response : Option AxiosResponse := none
deriving DecidableEq

/-- The value of the `response` variable after the try/catch of lines 157-171:
the successful response, or `error.response` from the caught error. -/
def fetchedResponse : Except TransportError AxiosResponse → Option AxiosResponse
  | Except.ok r => some r
  | Except.error e => e.response

/-- A JavaScript runtime exception: dereferencing a property of `undefined`
throws a TypeError. -/
inductive JsCrash
  | typeError
deriving DecidableEq

/-- Console line of lines 175-176. -/
def apiErrorLog (code : Int) (message : String) : String :=
  "\t! API-Error: " ++ message ++ " "
    ++ (if code = 14 then "; cleared access_token for retry..." else "")

/-- The embedded status-code check (lines 173-185): a non-zero code is logged
and exits the process; code 14 additionally deletes `access_token` and
persists the snapshot first.  Any other non-zero code mutates and persists
nothing. -/
def statusCheck (s : Settings) (code : Int) (message : String) : PhaseResult :=
  if code ≠ 0 then
    if code = 14 then
      { settings := { s with access_token := none },
        saved := [{ s with access_token := none }],
        console := [apiErrorLog code message],
        exitCode := some 1 }
    else
      { settings := s, saved := [], console := [apiErrorLog code message],
        exitCode := some 1 }
  else
    { settings := s }

/-- The sensor-poll phase down to the status check: line 173 reads
`response.data.status.code` without guarding `response`, so when the caught
transport error carried no response object the program throws a TypeError
instead of reaching the classified exit of `statusCheck`. -/
def sensorPhase (s : Settings) (result : Except TransportError AxiosResponse) :
    Except JsCrash PhaseResult :=
  match fetchedResponse result with
  | none => Except.error JsCrash.typeError
  | some r => Except.ok (statusCheck s r.data.status.code r.data.status.message)

/-! ### Actuation and hysteresis (lines 73-84 and 212-239) -/

/-- The relay portion of the tplink response consulted by `deviceToggle`
(`response.system.set_relay_state.err_code`, line 83). -/
structure RelayResponse where
  err_code : Int
deriving DecidableEq

/-- Lines 73-84: the vendor call selected by the `powerMode` string is
performed (login/device enumeration are external transport, abstracted as the
`relay` capability) and the call reports success iff the embedded
`err_code` is 0. -/
def deviceToggle (relay : String → RelayResponse) (powerMode : String) : Bool :=
  (relay powerMode).err_code == 0

/-- Outcome of the Sunroom handling for one poll: the settings afterwards, the
attempted commands with the actuator verdict for each, the `settingsSave`
calls and the mails attempted. -/
structure SunroomResult where
  settings : Settings
  commands : List (String × Bool) := []
  saved : List Settings := []
  mails : List (String × String) := []
deriving DecidableEq

/-- Subject of the low-temperature alert (line 236). -/
def sunroomMailSubject (temp : ℚ) : String :=
  "!Sunroom Temperature " ++ toString temp ++ " degrees"

/-- Text of the low-temperature alert (line 236). -/
def sunroomMailText (temp : ℚ) : String :=
  "Sunroom temperature " ++ toString temp ++ " degrees: action required"

/-- The tail of the Sunroom handling shared by all branches (lines 233-238):
`settingsSave(settings)` runs unconditionally, and an alert mail is attempted
when `temp < 5`. -/
def sunroomFinish (temp : ℚ) (s2 : Settings) (cmds : List (String × Bool)) :
    SunroomResult :=
  { settings := s2, commands := cmds, saved := [s2],
    mails := if temp < 5 then [(sunroomMailSubject temp, sunroomMailText temp)]
             else [] }

/-- The decision part of the Sunroom hysteresis (conditions of lines 213 and
223): strictly above 12 with a recorded state other than `"powerOff"` calls
for `powerOff`; strictly below 11 with a recorded state other than
`"powerOn"` calls for `powerOn`; otherwise nothing.  `temp` is the converted
one-decimal Celsius reading, compared numerically by JS. -/
def sunroomDecide (temp : ℚ) (recorded : Option String) : Option String :=
  if temp > 12 ∧ recorded ≠ some "powerOff" then some "powerOff"
  else if temp < 11 ∧ recorded ≠ some "powerOn" then some "powerOn"
  else none

/-- The Sunroom custom handling (lines 212-239): on a command the toggle is
attempted and `device_SunroomHeater` is updated only when `deviceToggle`
reported success; afterwards the settings are saved and the low-temperature
alert considered. -/
def sunroomStep (temp : ℚ) (s : Settings) (relay : String → RelayResponse) :
    SunroomResult :=
  if temp > 12 ∧ s.device_SunroomHeater ≠ some "powerOff" then
    sunroomFinish temp
      (if deviceToggle relay "powerOff" then
        { s with device_SunroomHeater := some "powerOff" } else s)
      [("powerOff", deviceToggle relay "powerOff")]
  else if temp < 11 ∧ s.device_SunroomHeater ≠ some "powerOn" then
    sunroomFinish temp
      (if deviceToggle relay "powerOn" then
        { s with device_SunroomHeater := some "powerOn" } else s)
      [("powerOn", deviceToggle relay "powerOn")]
  else sunroomFinish temp s []

/-! ### Notification (lines 43-71 and 235-238) -/

/-- Settlement of the `mailSend` promise (lines 43-71): when the nodemailer
callback reports an error the executor calls `reject()` and then falls
through to `resolve()`; a promise keeps its first settlement, so the promise
is rejected.  On success it resolves. -/
def mailSendSettled (sendError : Bool) : Except Unit Unit :=
  if sendError then Except.error () else Except.ok ()

/-- Console output of the `mailSend` callback: on an error the handler logs
the error and then still falls through to the success log (lines 60-68). -/
def mailSendConsole (sendError : Bool) (message : String) : List String :=
  if sendError then ["Error occurred: " ++ message, "Message sent successfully!"]
  else ["Message sent successfully!"]

/-- Lines 235-238: `await mailSend(...)` with no surrounding try/catch,
followed by a `logWrite`.  Awaiting a rejected promise throws, so the
following statements run only when the promise resolved; the returned log
lines are those actually written after the send. -/
def lowTempAlertFlow (sendError : Bool) : Except Unit (List String) :=
  match mailSendSettled sendError with
  | Except.error e => Except.error e
  | Except.ok _ => Except.ok ["\t\t * SUNROOM problem, sending email!\n"]

/-! ### Persistence (lines 39-41) -/

/-- One JSON string member, `"k":"v"`. -/
def jsonPair (k v : String) : String :=
  "\"" ++ k ++ "\":\"" ++ v ++ "\""

/-- JSON.stringify of the settings object: the present keys, in the order the
program introduces them, wrapped in braces. -/
def serialize (s : Settings) : String :=
  "\x7b" ++
    String.intercalate ","
      (List.filterMap id
        [ s.authCode.map (jsonPair "authCode"),
          s.access_token.map (jsonPair "access_token"),
          s.token_type.map (jsonPair "token_type"),
          s.refresh_token.map (jsonPair "refresh_token"),
          s.device_SunroomHeater.map (jsonPair "device_SunroomHeater") ]) ++
    "\x7d"

/-- Lines 39-41: `settingsSave` writes `JSON.stringify(settings)` to the
settings file with a single in-place `fs.writeFileSync`; this is the document
content handed to the write. -/
def settingsSave (s : Settings) : String := serialize s

/-- Crash semantics of the in-place `fs.writeFileSync` used by
`settingsSave`: the file is opened with truncation and the new bytes are
written sequentially, so a process crash after `k` characters leaves exactly
the first `k` characters of the new content on disk. -/
def writeFileSyncCrash (content : String) (k : Nat) : String :=
  ⟨content.data.take k⟩

/-- The serialized snapshot always starts with a brace, so it is never the
empty string. -/
lemma serialize_ne_empty (s : Settings) : serialize s ≠ "" := by
  intro h
  have h2 := congrArg String.length h
  unfold serialize at h2
  rw [String.length_append, String.length_append] at h2
  rw [show ("\x7b" : String).length = 1 from rfl,
      show ("\x7d" : String).length = 1 from rfl,
      show ("" : String).length = 0 from rfl] at h2
  omega

/-! ## C1: threshold comparisons of the hysteresis decision -/

/-- C1, counterexample: the claim says a reading equal to `offThreshold = 12`
with recorded state `on` must produce `Command(powerOff)`; the code compares
strictly (`temp>12`), so at reading 12 with recorded state `"powerOn"` the
hypotheses of the claim hold and yet no command is produced. -/
theorem hysteresis_threshold_counterexample :
    ((12 : ℚ) ≥ 12 ∧ (some "powerOn" : Option String) ≠ some "powerOff") ∧
    sunroomDecide 12 (some "powerOn") = none ∧
    sunroomDecide 12 (some "powerOn") ≠ some "powerOff" := by decide

/-- C1, amended: the hysteresis decision emits `powerOff` whenever the
reading is strictly above 12 and the recorded state is not `off`, emits
`powerOn` whenever the reading is strictly below 11 and the recorded state is
not `on`, and a reading exactly equal to either threshold never produces a
command. -/
theorem hysteresis_strict_thresholds (t : ℚ) (r : Option String) :
    (12 < t → r ≠ some "powerOff" → sunroomDecide t r = some "powerOff") ∧
    (t < 11 → r ≠ some "powerOn" → sunroomDecide t r = some "powerOn") ∧
    sunroomDecide 12 r = none ∧ sunroomDecide 11 r = none := by
  refine ⟨?_, ?_, ?_, ?_⟩
  · intro h1 h2
    unfold sunroomDecide
    rw [if_pos ⟨h1, h2⟩]
  · intro h1 h2
    have hng : ¬(t > 12 ∧ r ≠ some "powerOff") := by
      rintro ⟨hgt, -⟩; linarith
    unfold sunroomDecide
    rw [if_neg hng, if_pos ⟨h1, h2⟩]
  · have hng1 : ¬((12 : ℚ) > 12 ∧ r ≠ some "powerOff") := by
      rintro ⟨hgt, -⟩; exact lt_irrefl _ hgt
    have hng2 : ¬((12 : ℚ) < 11 ∧ r ≠ some "powerOn") := by
      rintro ⟨hlt, -⟩; norm_num at hlt
    unfold sunroomDecide
    rw [if_neg hng1, if_neg hng2]
  · have hng1 : ¬((11 : ℚ) > 12 ∧ r ≠ some "powerOff") := by
      rintro ⟨hgt, -⟩; norm_num at hgt
    have hng2 : ¬((11 : ℚ) < 11 ∧ r ≠ some "powerOn") := by
      rintro ⟨hlt, -⟩; exact lt_irrefl _ hlt
    unfold sunroomDecide
    rw [if_neg hng1, if_neg hng2]

/-- C1, witness: at reading 13 with no recorded state the decision is
`powerOff`; at reading 4 it is `powerOn`. -/
theorem hysteresis_strict_thresholds_witness :
    sunroomDecide 13 none = some "powerOff" ∧
    sunroomDecide 4 none = some "powerOn" :=
  ⟨(hysteresis_strict_thresholds 13 none).1 (by decide) (by decide),
   (hysteresis_strict_thresholds 4 none).2.1 (by decide) (by decide)⟩

/-! ## C2: embedded status-code handling of the sensor poll -/

/-- C2: on embedded status code 14 the program deletes `access_token` from
the snapshot, persists exactly that snapshot, exits 1, and leaves every other
field unchanged; on any other non-zero code it exits 1 with the settings
untouched and nothing persisted. -/
theorem status_code_handling (s : Settings) (c : Int) (msg : String) :
    ((statusCheck s 14 msg).settings.access_token = none ∧
     (statusCheck s 14 msg).settings.authCode = s.authCode ∧
     (statusCheck s 14 msg).settings.refresh_token = s.refresh_token ∧
     (statusCheck s 14 msg).settings.token_type = s.token_type ∧
     (statusCheck s 14 msg).settings.device_SunroomHeater = s.device_SunroomHeater ∧
     (statusCheck s 14 msg).saved = [(statusCheck s 14 msg).settings] ∧
     (statusCheck s 14 msg).exitCode = some 1) ∧
    (c ≠ 0 → c ≠ 14 →
      (statusCheck s c msg).settings = s ∧
      (statusCheck s c msg).saved = [] ∧
      (statusCheck s c msg).exitCode = some 1) := by
  constructor
  · have h0 : ((14 : Int) ≠ 0) := by decide
    unfold statusCheck
    rw [if_pos h0, if_pos rfl]
    exact ⟨rfl, rfl, rfl, rfl, rfl, rfl, rfl⟩
  · intro hc0 hc14
    unfold statusCheck
    rw [if_pos hc0, if_neg hc14]
    exact ⟨rfl, rfl, rfl⟩

/-- C2, witness: status code 5 exits without mutating or persisting the empty
snapshot. -/
theorem status_code_handling_witness :
    (statusCheck emptySettings 5 "oops").settings = emptySettings ∧
    (statusCheck emptySettings 5 "oops").saved = [] ∧
    (statusCheck emptySettings 5 "oops").exitCode = some 1 :=
  (status_code_handling emptySettings 5 "oops").2 (by decide) (by decide)

/-! ## C3: token-exchange error branch -/

/-- C3: when the token POST reports an error, `authorization_expired` clears
`authCode`, persists and exits 1; any other provider error clears only
`access_token` (leaving `authCode` and `refresh_token` intact), persists and
exits 1. -/
theorem token_error_branch (s : Settings) (r : TokenResponse) (err : String)
    (h : r.error = some err) :
    (err = "authorization_expired" →
      (tokenBranch s r).settings = { s with authCode := none } ∧
      (tokenBranch s r).saved = [{ s with authCode := none }] ∧
      (tokenBranch s r).exitCode = some 1) ∧
    (err ≠ "authorization_expired" →
      (tokenBranch s r).settings = { s with access_token := none } ∧
      (tokenBranch s r).settings.authCode = s.authCode ∧
      (tokenBranch s r).settings.refresh_token = s.refresh_token ∧
      (tokenBranch s r).saved = [{ s with access_token := none }] ∧
      (tokenBranch s r).exitCode = some 1) := by
  constructor
  · intro he
    simp [tokenBranch, h, he]
  · intro he
    simp [tokenBranch, h, he]

/-- C3, witness: an `authorization_expired` error on a snapshot holding an
auth code and a refresh token clears the auth code, persists, and exits 1. -/
theorem token_error_branch_witness :
    (tokenBranch ⟨some "AC", none, some "RT", none, none⟩
        ⟨some "authorization_expired", none, none, none⟩).settings
      = { (⟨some "AC", none, some "RT", none, none⟩ : Settings) with authCode := none } ∧
    (tokenBranch ⟨some "AC", none, some "RT", none, none⟩
        ⟨some "authorization_expired", none, none, none⟩).saved
      = [{ (⟨some "AC", none, some "RT", none, none⟩ : Settings) with authCode := none }] ∧
    (tokenBranch ⟨some "AC", none, some "RT", none, none⟩
        ⟨some "authorization_expired", none, none, none⟩).exitCode = some 1 :=
  (token_error_branch _ _ "authorization_expired" rfl).1 rfl

/-! ## C4: refresh-grant precedence in the token request -/

/-- C4: with `refresh_token` present and `access_token` absent, the token
branch runs and its request body is the refresh grant; the PIN grant is used
only when `refresh_token` is absent. -/
theorem refresh_grant_precedence (s : Settings) (rt : String)
    (h1 : s.refresh_token = some rt) (h2 : s.access_token = none) :
    runsTokenBranch s = true ∧
    tokenRequestBody s = TokenRequest.refreshGrant rt ∧
    (∀ s2 ac, tokenRequestBody s2 = TokenRequest.pinGrant ac →
      s2.refresh_token = none) := by
  refine ⟨?_, ?_, ?_⟩
  · unfold runsTokenBranch
    rw [h2]
    rfl
  · unfold tokenRequestBody
    rw [h1]
  · intro s2 ac hpin
    unfold tokenRequestBody at hpin
    cases hr : s2.refresh_token with
    | none => rfl
    | some x =>
      rw [hr] at hpin
      exact TokenRequest.noConfusion hpin

/-- C4, witness: a snapshot with only a refresh token issues the refresh
grant. -/
theorem refresh_grant_precedence_witness :
    runsTokenBranch ⟨none, none, some "RT", none, none⟩ = true ∧
    tokenRequestBody ⟨none, none, some "RT", none, none⟩
      = TokenRequest.refreshGrant "RT" :=
  ⟨(refresh_grant_precedence ⟨none, none, some "RT", none, none⟩ "RT" rfl rfl).1,
   (refresh_grant_precedence ⟨none, none, some "RT", none, none⟩ "RT" rfl rfl).2.1⟩

/-! ## C5: PIN-grant branch -/

/-- C5, counterexample: the claim says the returned PIN is stored in the
snapshot; running the PIN branch on the empty snapshot with PIN `"1234"` and
auth code `"AUTHCODE"` leaves no snapshot field holding the PIN, and the
notification is the fixed subject/text pair, neither of which is the PIN. -/
theorem pin_not_stored_counterexample :
    settingsMentions (pinBranch emptySettings ⟨"1234", "AUTHCODE"⟩).settings "1234"
      = false ∧
    (pinBranch emptySettings ⟨"1234", "AUTHCODE"⟩).mails
      = [(pinMailSubject, pinMailText)] ∧
    ¬ ("1234".data <:+: pinMailText.data) ∧
    ¬ ("1234".data <:+: pinMailSubject.data) := by decide

/-- C5, amended: for every snapshot with no `authCode`, the run requests a
device-PIN grant, stores the returned auth code (but not the PIN) in the
snapshot, persists it, prints the PIN to the console, sends the operator a
fixed re-authorization notice that does not include the PIN, and halts with
exit 1; the persisted snapshot contains the freshly issued auth code. -/
theorem pin_grant_flow (s : Settings) (r : PinResponse) (h : s.authCode = none) :
    runsPinBranch s = true ∧
    (pinBranch s r).settings.authCode = some r.code ∧
    (pinBranch s r).saved = [(pinBranch s r).settings] ∧
    (pinBranch s r).mails = [(pinMailSubject, pinMailText)] ∧
    (pinBranch s r).console = [pinPrompt r.ecobeePin] ∧
    (pinBranch s r).exitCode = some 1 := by
  refine ⟨?_, rfl, rfl, rfl, rfl, rfl⟩
  unfold runsPinBranch
  rw [h]
  rfl

/-- C5, witness: the PIN branch on the empty snapshot with auth code
`"AUTHCODE"` stores and persists that code and exits 1. -/
theorem pin_grant_flow_witness :
    runsPinBranch emptySettings = true ∧
    (pinBranch emptySettings ⟨"1234", "AUTHCODE"⟩).settings.authCode
      = some "AUTHCODE" ∧
    (pinBranch emptySettings ⟨"1234", "AUTHCODE"⟩).saved
      = [(pinBranch emptySettings ⟨"1234", "AUTHCODE"⟩).settings] ∧
    (pinBranch emptySettings ⟨"1234", "AUTHCODE"⟩).mails
      = [(pinMailSubject, pinMailText)] ∧
    (pinBranch emptySettings ⟨"1234", "AUTHCODE"⟩).console
      = [pinPrompt "1234"] ∧
    (pinBranch emptySettings ⟨"1234", "AUTHCODE"⟩).exitCode = some 1 :=
  pin_grant_flow emptySettings ⟨"1234", "AUTHCODE"⟩ rfl

/-! ## C6: idempotence and dead band of the hysteresis step -/

/-- C6: when the recorded state already matches what the reading calls for
(at or above 12 with `off` recorded, at or below 11 with `on` recorded), or
the reading lies strictly inside the dead band (11, 12), the Sunroom step
issues no command and leaves the recorded device state unchanged. -/
theorem hysteresis_idempotent (t : ℚ) (s : Settings)
    (relay : String → RelayResponse)
    (h : (12 ≤ t ∧ s.device_SunroomHeater = some "powerOff") ∨
         (t ≤ 11 ∧ s.device_SunroomHeater = some "powerOn") ∨
         (11 < t ∧ t < 12)) :
    (sunroomStep t s relay).commands = [] ∧
    (sunroomStep t s relay).settings.device_SunroomHeater
      = s.device_SunroomHeater := by
  have h1 : ¬(t > 12 ∧ s.device_SunroomHeater ≠ some "powerOff") := by
    rcases h with ⟨ht, hd⟩ | ⟨ht, hd⟩ | ⟨ht1, ht2⟩
    · rintro ⟨-, hne⟩; exact hne hd
    · rintro ⟨hgt, -⟩; linarith
    · rintro ⟨hgt, -⟩; linarith
  have h2 : ¬(t < 11 ∧ s.device_SunroomHeater ≠ some "powerOn") := by
    rcases h with ⟨ht, hd⟩ | ⟨ht, hd⟩ | ⟨ht1, ht2⟩
    · rintro ⟨hlt, -⟩; linarith
    · rintro ⟨-, hne⟩; exact hne hd
    · rintro ⟨hlt, -⟩; linarith
  unfold sunroomStep
  rw [if_neg h1, if_neg h2]
  exact ⟨rfl, rfl⟩

/-- C6, witness: at reading 13 with `"powerOff"` already recorded no command
is issued and the recorded state is unchanged. -/
theorem hysteresis_idempotent_witness :
    (sunroomStep 13 ⟨none, none, none, none, some "powerOff"⟩
        (fun _ => ⟨0⟩)).commands = [] ∧
    (sunroomStep 13 ⟨none, none, none, none, some "powerOff"⟩
        (fun _ => ⟨0⟩)).settings.device_SunroomHeater = some "powerOff" :=
  hysteresis_idempotent 13 ⟨none, none, none, none, some "powerOff"⟩
    (fun _ => ⟨0⟩) (Or.inl ⟨by decide, rfl⟩)

/-! ## C7: the recorded state tracks only confirmed actuations -/

/-- C7: if every toggle the actuator performs fails, the recorded device
state after the Sunroom step is exactly what it was; and whenever the
recorded state did change, some command was attempted, confirmed by the
actuator (embedded `err_code` 0), and the new recorded state is exactly that
command. -/
theorem actuation_confirmed_update (t : ℚ) (s : Settings)
    (relay : String → RelayResponse) :
    ((∀ m, deviceToggle relay m = false) →
      (sunroomStep t s relay).settings.device_SunroomHeater
        = s.device_SunroomHeater) ∧
    ((sunroomStep t s relay).settings.device_SunroomHeater
        ≠ s.device_SunroomHeater →
      ∃ m, (m, true) ∈ (sunroomStep t s relay).commands ∧
        (sunroomStep t s relay).settings.device_SunroomHeater = some m ∧
        (relay m).err_code = 0) := by
  unfold sunroomStep
  split_ifs with hc1 ht1 hc2 ht2
  · constructor
    · intro hall
      rw [hall "powerOff"] at ht1
      cases ht1
    · intro hne
      refine ⟨"powerOff", ?_, rfl, ?_⟩
      · simp [sunroomFinish, ht1]
      · have := ht1
        unfold deviceToggle at this
        simpa using this
  · constructor
    · intro _; rfl
    · intro hne; exact absurd rfl hne
  · constructor
    · intro hall
      rw [hall "powerOn"] at ht2
      cases ht2
    · intro hne
      refine ⟨"powerOn", ?_, rfl, ?_⟩
      · simp [sunroomFinish, ht2]
      · have := ht2
        unfold deviceToggle at this
        simpa using this
  · constructor
    · intro _; rfl
    · intro hne; exact absurd rfl hne
  · constructor
    · intro _; rfl
    · intro hne; exact absurd rfl hne

/-- C7, witness: with an actuator that always reports `err_code` 1, a reading
of 13 on the empty snapshot leaves the recorded device state absent. -/
theorem actuation_confirmed_update_witness :
    (sunroomStep 13 emptySettings (fun _ => ⟨1⟩)).settings.device_SunroomHeater
      = none :=
  (actuation_confirmed_update 13 emptySettings (fun _ => ⟨1⟩)).1 (fun _ => rfl)

/-! ## C8: a failed notification aborts the surrounding flow -/

/-- C8: the claim says a failed notification send never prevents the
following steps from executing.  In the code `mailSend` rejects its promise
on a transport error (while also logging a success message), and the awaited
call at lines 235-238 has no catch, so the `logWrite` after the send is
skipped exactly when the send failed. -/
theorem mail_failure_aborts_flow :
    lowTempAlertFlow true = Except.error () ∧
    lowTempAlertFlow false
      = Except.ok ["\t\t * SUNROOM problem, sending email!\n"] ∧
    mailSendConsole true "SMTP unavailable"
      = ["Error occurred: SMTP unavailable", "Message sent successfully!"] :=
  ⟨rfl, rfl, rfl⟩

/-! ## C9: settingsSave is not crash-atomic -/

/-- C9, counterexample: with the previous snapshot `{}` on disk and the new
snapshot holding `authCode = "ABC"`, a crash after 3 characters of the
in-place write leaves a file that is neither the complete previous nor the
complete new document. -/
theorem nonatomic_write_counterexample :
    writeFileSyncCrash (settingsSave ⟨some "ABC", none, none, none, none⟩) 3
      ≠ settingsSave emptySettings ∧
    writeFileSyncCrash (settingsSave ⟨some "ABC", none, none, none, none⟩) 3
      ≠ settingsSave ⟨some "ABC", none, none, none, none⟩ := by
  constructor <;> decide

/-- C9, amended: `settingsSave` rewrites the snapshot file in place with a
single `fs.writeFileSync` and is not atomic: for any non-empty previous
content there is a crash point leaving a file that is neither the previous
nor the new document, while only an uninterrupted write leaves the complete
new snapshot. -/
theorem nonatomic_settings_save (old : String) (s : Settings) (h : old ≠ "") :
    (∃ k, writeFileSyncCrash (settingsSave s) k ≠ old ∧
          writeFileSyncCrash (settingsSave s) k ≠ settingsSave s) ∧
    writeFileSyncCrash (settingsSave s) ((settingsSave s).length)
      = settingsSave s := by
  constructor
  · refine ⟨0, ?_, ?_⟩
    · intro heq
      apply h
      have h0 : writeFileSyncCrash (settingsSave s) 0 = "" := by
        unfold writeFileSyncCrash
        rw [List.take_zero]
      exact heq.symm.trans h0
    · intro heq
      apply serialize_ne_empty s
      have h0 : writeFileSyncCrash (settingsSave s) 0 = "" := by
        unfold writeFileSyncCrash
        rw [List.take_zero]
      exact (h0.symm.trans heq).symm
  · unfold writeFileSyncCrash
    rw [show (settingsSave s).length = (settingsSave s).data.length from rfl,
      List.take_length]

/-- C9, witness: an uninterrupted save of the empty snapshot writes the
complete serialized document. -/
theorem nonatomic_settings_save_witness :
    writeFileSyncCrash (settingsSave emptySettings)
        ((settingsSave emptySettings).length)
      = settingsSave emptySettings :=
  (nonatomic_settings_save "X" emptySettings (by decide)).2

/-! ## C10: missing response payload crashes the status read -/

/-- C10: when the sensor GET fails and the caught error carries no response
object, reading `response.data.status.code` throws a TypeError instead of
reaching the classified status check; when the caught error does carry a
response, the embedded code is routed to `statusCheck` as usual. -/
theorem missing_response_crashes (s : Settings) (e : TransportError)
    (h : e.response = none) :
    sensorPhase s (Except.error e) = Except.error JsCrash.typeError ∧
    (∀ r : AxiosResponse,
      sensorPhase s (Except.error { e with response := some r })
        = Except.ok (statusCheck s r.data.status.code r.data.status.message)) := by
  constructor
  · simp [sensorPhase, fetchedResponse, h]
  · intro r
    rfl

/-- C10, witness: a transport error with message `"boom"` and no response
payload makes the sensor phase crash with a TypeError. -/
theorem missing_response_crashes_witness :
    sensorPhase emptySettings (Except.error ⟨"boom", none⟩)
      = Except.error JsCrash.typeError :=
  (missing_response_crashes emptySettings ⟨"boom", none⟩ rfl).1

end Ecobee
